import Mathlib

/-!
Verification of the core logic of `gh-search-docs` (main.go): the argument
reorderer, the query-parameter builder, the result-count selection, intro
truncation, the more-results hint, and the pagination arithmetic.

Go strings are byte sequences; where byte-level length and slicing matter
(the intro truncation) we model a Go string as a list of bytes (`GoBytes`).
Go `int` is modeled as `Int`; Go integer division truncates toward zero
(`Int.tdiv`) and panics on a zero divisor, which we model with an explicit
panic flag on the rendering function.
-/

/-- A Go string viewed as its byte sequence (Go `len` and `s[:n]` are byte-level). -/
abbrev GoBytes := List Nat

/-- The bytes of the Go string literal `"..."` appended after truncation. -/
def ellipsisBytes : GoBytes := [46, 46, 46]

/-- `meta.found` of the decoded API response (main.go lines 51-54). -/
structure FoundMeta where
  value : Int
  relation : String
deriving Repr, DecidableEq

/-- `meta.took` of the decoded API response (main.go lines 55-58). -/
structure TookMeta where
  queryMsec : Int
  totalMsec : Int
deriving Repr, DecidableEq

/-- `meta` of the decoded API response (main.go lines 50-61). -/
structure ResultMeta where
  found : FoundMeta
  took : TookMeta
  page : Int
  size : Int
deriving Repr, DecidableEq

/-- A decoded JSON value as it can appear under a highlight key
(`map[string]interface{}` in Go): a string, an array, or anything else. -/
inductive HighlightVal where
  | str (s : String)
  | arr (elems : List HighlightVal)
  | other
deriving Repr

/-- One search hit (main.go lines 65-76).  The `intro` field is kept as a byte
sequence because the renderer slices it at a byte count; `score` (float64) is
not consumed by any modeled logic and is omitted.  A `none` highlights field
models a nil Go map (the renderer checks `item.Highlights != nil`). -/
structure SearchItem where
  id : String
  title : String
  url : String
  breadcrumbs : String
  content : String
  intro : GoBytes
  headings : String
  toplevel : String
  highlights : Option (List (String × HighlightVal))
deriving Repr

/-- The decoded API response (main.go lines 49-63). -/
structure SearchResult where
  meta : ResultMeta
  hits : List SearchItem
deriving Repr

/-- The flag values in scope after `fs.Parse` and the size validation
(main.go lines 140-160 and 202-222).  `version` holds the already-normalized
version string (`searchdocs.NormalizeVersion` is applied before the URL is
built and is an external collaborator). -/
structure ParsedOptions where
  query : String
  size : Int
  version : String
  language : String
  page : Int
  sort : String
  debug : Bool
  format : String
  plain : Bool
  includeMatchedContent : Bool
  highlights : List String
  includes : List String
  toplevel : List String
  aggregate : List String
deriving Repr

/-- Boolean flags that take no value (main.go lines 97-102). -/
def boolFlags : List String :=
  ["--debug", "--plain", "--list-versions", "--include-matched-content"]

/-- `strings.HasPrefix s "-"`: the first byte of `s` is `-` (the needle is
ASCII, so the byte-level and character-level tests agree). -/
def startsWithDash (s : String) : Bool := decide (s.data.take 1 = ['-'])

/-- `strings.Contains s "="`: some byte of `s` is `=` (the needle is ASCII,
so the byte-level and character-level tests agree). -/
def containsEqualsSign (s : String) : Bool := s.data.contains '='

/-- The scan loop of `reorderArgs` (main.go lines 104-128), returning the
`flags` and `nonFlags` accumulators.  A `-`-prefixed token with an embedded
`=` or in the boolean-flag set is emitted alone; any other `-`-prefixed token
also consumes the following token as its value when that token exists and does
not start with `-`.  The one-element case folds the three flag subcases of the
loop body, which all emit the lone flag token without a value when no next
token exists. -/
def reorderGo : List String → List String × List String
  | [] => ([], [])
  | [arg] =>
    if startsWithDash arg then ([arg], [])
    else ([], [arg])
  | arg :: next :: rest2 =>
    if startsWithDash arg then
      if containsEqualsSign arg then
        ((arg :: (reorderGo (next :: rest2)).1), (reorderGo (next :: rest2)).2)
      else if boolFlags.contains arg then
        ((arg :: (reorderGo (next :: rest2)).1), (reorderGo (next :: rest2)).2)
      else if startsWithDash next = false then
        ((arg :: next :: (reorderGo rest2).1), (reorderGo rest2).2)
      else
        ((arg :: (reorderGo (next :: rest2)).1), (reorderGo (next :: rest2)).2)
    else
      ((reorderGo (next :: rest2)).1, arg :: (reorderGo (next :: rest2)).2)

/-- `reorderArgs` (main.go lines 92-132): flags first, then non-flag tokens. -/
def reorderArgs (args : List String) : List String :=
  (reorderGo args).1 ++ (reorderGo args).2

/-- The outgoing query parameters (main.go lines 232-276), as the ordered list
of `(name, value)` pairs added to `url.Values`.  Per-key value order is the
order of the `Set`/`Add` calls, which is what `url.Values` preserves. -/
def buildParams (o : ParsedOptions) : List (String × String) :=
  [("query", o.query), ("size", toString o.size),
   ("version", o.version), ("language", o.language)]
  ++ (if o.page > 0 then [("page", toString o.page)] else [])
  ++ (if o.sort ≠ "" then [("sort", o.sort)] else [])
  ++ (if o.highlights.length > 0 then
        o.highlights.map (fun h => ("highlights", h)) else [])
  ++ (if o.includeMatchedContent then [("highlights", "content_explicit")] else [])
  ++ (if o.includes.length = 0 then
        if o.includeMatchedContent then [("include", "toplevel")]
        else [("include", "intro")]
      else o.includes.map (fun inc => ("include", inc)))
  ++ (if o.toplevel.length > 0 then
        o.toplevel.map (fun tl => ("toplevel", tl)) else [])
  ++ (if o.aggregate.length > 0 then
        o.aggregate.map (fun agg => ("aggregate", agg)) else [])

/-- The multi-valued lookup of one parameter name in the outgoing parameter
list, in insertion order (what `url.Values[key]` holds). -/
def paramValues (ps : List (String × String)) (key : String) : List String :=
  (ps.filter (fun p => p.1 = key)).map (fun p => p.2)

/-- The displayed-result count (main.go lines 349-355): start from the number
of hits, cap at 5 in the default-size preview case, otherwise cap at the
requested size when it is smaller. -/
def maxResults (hitCount : Int) (size : Int) (matched : Bool) : Int :=
  if size = 5 ∧ hitCount > 5 ∧ matched = false then 5
  else if size < hitCount then size
  else hitCount

/-- Intro truncation (main.go lines 386-389 and 431-434): byte slices longer
than 150 are cut to their first 150 bytes with `"..."` appended. -/
def truncDescription (description : GoBytes) : GoBytes :=
  if description.length > 150 then description.take 150 ++ ellipsisBytes
  else description

/-- Strip the highlight markers of the API for plain-text output
(main.go lines 447-448 and 454-455). -/
def stripMarkTags (s : String) : String :=
  (s.replace "<mark>" "").replace "</mark>" ""

/-- The `content_explicit` highlight fragments printed in matched-content mode
(main.go lines 395-408 pretty, 440-459 plain): the field may be a string or an
array of values; non-string array elements are skipped; plain mode strips the
`<mark>` marker pair. -/
def contentExplicitFragments (hl : Option (List (String × HighlightVal)))
    (stripMarks : Bool) : List String :=
  match hl with
  | none => []
  | some m =>
    match m.lookup "content_explicit" with
    | none => []
    | some (.arr xs) =>
        xs.filterMap (fun x =>
          match x with
          | .str s => some (if stripMarks then stripMarkTags s else s)
          | _ => none)
    | some (.str s) => [if stripMarks then stripMarkTags s else s]
    | some .other => []

/-- One line of terminal output, abstracting the printed text to its payload. -/
inductive OutLine where
  | jsonDump
  | noResults (query : String)
  | foundHeader (found : Int) (page : Option Int)
  | item (idx : Nat) (title : String) (url : String)
      (desc : Option GoBytes) (fragments : List String)
  | hintSizeAll (found : Int)
  | hintSizeMax
  | hintPageAll (found : Int)
  | hintMatchedContent
  | pageInfo (page : Int) (totalPages : Int) (found : Int)
  | nextPageHint (nextPage : Int)
deriving Repr, DecidableEq

/-- Rendering of one displayed hit (main.go lines 374-463).  Index is 1-based;
the URL is the docs host prefixed to the relative URL of the item; the description
is the truncated intro, shown only when matched-content mode is off and the
intro is non-empty; fragments are shown only in matched-content mode, with
markers stripped exactly when pretty rendering is off. -/
def renderItem (o : ParsedOptions) (usePretty : Bool) (i : Nat)
    (item : SearchItem) : OutLine :=
  OutLine.item (i + 1) item.title ("https://docs.github.com" ++ item.url)
    (if o.includeMatchedContent = false ∧ item.intro ≠ [] then
        some (truncDescription item.intro)
     else none)
    (if o.includeMatchedContent then
        contentExplicitFragments item.highlights (usePretty = false)
     else [])

/-- The display loop `for i := 0; i < maxResults; i++` (main.go line 374),
carrying the running index. -/
def renderItems (o : ParsedOptions) (usePretty : Bool) :
    Nat → List SearchItem → List OutLine
  | _, [] => []
  | i, item :: rest =>
      renderItem o usePretty i item :: renderItems o usePretty (i + 1) rest

/-- `totalPages` (main.go line 477): Go truncated integer division.  Only
meaningful when `meta.size ≠ 0`; the zero-divisor panic is modeled in
`renderOutput`. -/
def totalPages (r : SearchResult) : Int :=
  (r.meta.found.value + r.meta.size - 1).tdiv r.meta.size

/-- The pagination section (main.go lines 478-487): printed when more than one
page exists, with a next-page hint when not on the last page. -/
def paginationLines (r : SearchResult) : List OutLine :=
  if totalPages r > 1 then
    OutLine.pageInfo r.meta.page (totalPages r) r.meta.found.value ::
      (if r.meta.page < totalPages r then
          [OutLine.nextPageHint (r.meta.page + 1)]
       else [])
  else []

/-- The more-results hint block (main.go lines 465-474). -/
def moreResultsHint (o : ParsedOptions) (r : SearchResult) (maxR : Int) :
    List OutLine :=
  if maxR = 5 ∧ r.meta.found.value > 5 ∧ o.includeMatchedContent = false then
    (if r.meta.found.value ≤ 50 then [OutLine.hintSizeAll r.meta.found.value]
     else [OutLine.hintSizeMax, OutLine.hintPageAll r.meta.found.value])
    ++ [OutLine.hintMatchedContent]
  else []

/-- The output stage (main.go lines 328-488) as the list of printed lines plus
a flag recording whether the run panics at the `totalPages` division (Go
integer division by zero, reached when `meta.size = 0`); output printed before
that point is kept, as Go prints eagerly. -/
def renderOutput (o : ParsedOptions) (r : SearchResult) : List OutLine × Bool :=
  if o.format = "json" then ([OutLine.jsonDump], false)
  else if r.meta.found.value = 0 then ([OutLine.noResults o.query], false)
  else
    let usePretty := o.plain = false ∧ o.format ≠ "plain"
    let maxR := maxResults r.hits.length o.size o.includeMatchedContent
    let header := OutLine.foundHeader r.meta.found.value
      (if r.meta.page > 1 then some r.meta.page else none)
    let shown := renderItems o (decide usePretty) 0 (r.hits.take maxR.toNat)
    let hint := moreResultsHint o r maxR
    if r.meta.size = 0 then (header :: (shown ++ hint), true)
    else (header :: (shown ++ (hint ++ paginationLines r)), false)

/-- Discriminator: is this line a displayed result? -/
def isItem : OutLine → Bool
  | .item _ _ _ _ _ => true
  | _ => false

/-- Discriminator: is this line the pagination summary? -/
def isPageInfo : OutLine → Bool
  | .pageInfo _ _ _ => true
  | _ => false

/-- Discriminator: is this line the next-page hint? -/
def isNextPageHint : OutLine → Bool
  | .nextPageHint _ => true
  | _ => false

/-- The number of displayed results in an output line list. -/
def itemCount (lines : List OutLine) : Nat := (lines.filter isItem).length

/-- The description payload of a displayed-result line. -/
def itemDesc : OutLine → Option GoBytes
  | .item _ _ _ d _ => d
  | _ => none

/-- The flag defaults of main.go lines 140-160 with the query `"ssh key"`:
the options of an invocation that sets nothing else. -/
def defaultOpts : ParsedOptions :=
  { query := "ssh key", size := 5, version := "free-pro-team", language := "en",
    page := 0, sort := "", debug := false, format := "pretty", plain := false,
    includeMatchedContent := false, highlights := [], includes := [],
    toplevel := [], aggregate := [] }

/-- A sample hit used for concrete checks. -/
def sampleItem (n : Nat) : SearchItem :=
  { id := toString n, title := "Sample", url := "/en/sample",
    breadcrumbs := "", content := "", intro := [97, 98, 99],
    headings := "", toplevel := "", highlights := none }

/-- A decoded response with a given found count, page, size, and hit count. -/
def sampleResult (found page size : Int) (hitCount : Nat) : SearchResult :=
  { meta := { found := { value := found, relation := "eq" },
              took := { queryMsec := 1, totalMsec := 2 },
              page := page, size := size },
    hits := (List.range hitCount).map sampleItem }

/-! ## Lemmas about the argument reorderer -/

theorem reorderGo_perm (args : List String) :
    ((reorderGo args).1 ++ (reorderGo args).2).Perm args := by
  induction args using reorderGo.induct with
  | case1 => simp [reorderGo]
  | case2 arg h => simp [reorderGo, h]
  | case3 arg h => simp [reorderGo, h]
  | case4 arg next rest2 h1 h2 ih =>
      simp [reorderGo, h1, h2]
      exact ih
  | case5 arg next rest2 h1 h2 h3 ih =>
      replace h3 : arg ∈ boolFlags := by simpa using h3
      simp [reorderGo, h1, h2, h3]
      exact ih
  | case6 arg next rest2 h1 h2 h3 h4 ih =>
      replace h3 : arg ∉ boolFlags := by simpa using h3
      simp [reorderGo, h1, h2, h3, h4]
      exact ih
  | case7 arg next rest2 h1 h2 h3 h4 ih =>
      replace h3 : arg ∉ boolFlags := by simpa using h3
      simp [reorderGo, h1, h2, h3, h4]
      exact ih
  | case8 arg next rest2 h1 ih =>
      simp [reorderGo, h1]
      exact List.perm_middle.trans (ih.cons arg)

theorem reorderGo_fst_sublist (args : List String) :
    (reorderGo args).1.Sublist args := by
  induction args using reorderGo.induct with
  | case1 => simp [reorderGo]
  | case2 arg h => simp [reorderGo, h]
  | case3 arg h => simp [reorderGo, h]
  | case4 arg next rest2 h1 h2 ih =>
      simp [reorderGo, h1, h2]
      exact ih
  | case5 arg next rest2 h1 h2 h3 ih =>
      replace h3 : arg ∈ boolFlags := by simpa using h3
      simp [reorderGo, h1, h2, h3]
      exact ih
  | case6 arg next rest2 h1 h2 h3 h4 ih =>
      replace h3 : arg ∉ boolFlags := by simpa using h3
      simp [reorderGo, h1, h2, h3, h4]
      exact ih
  | case7 arg next rest2 h1 h2 h3 h4 ih =>
      replace h3 : arg ∉ boolFlags := by simpa using h3
      simp [reorderGo, h1, h2, h3, h4]
      exact ih
  | case8 arg next rest2 h1 ih =>
      simp [reorderGo, h1]
      exact List.Sublist.cons arg ih

theorem reorderGo_snd_sublist (args : List String) :
    (reorderGo args).2.Sublist args := by
  induction args using reorderGo.induct with
  | case1 => simp [reorderGo]
  | case2 arg h => simp [reorderGo, h]
  | case3 arg h => simp [reorderGo, h]
  | case4 arg next rest2 h1 h2 ih =>
      simp [reorderGo, h1, h2]
      exact List.Sublist.cons arg ih
  | case5 arg next rest2 h1 h2 h3 ih =>
      replace h3 : arg ∈ boolFlags := by simpa using h3
      simp [reorderGo, h1, h2, h3]
      exact List.Sublist.cons arg ih
  | case6 arg next rest2 h1 h2 h3 h4 ih =>
      replace h3 : arg ∉ boolFlags := by simpa using h3
      simp [reorderGo, h1, h2, h3, h4]
      exact List.Sublist.cons arg (List.Sublist.cons next ih)
  | case7 arg next rest2 h1 h2 h3 h4 ih =>
      replace h3 : arg ∉ boolFlags := by simpa using h3
      simp [reorderGo, h1, h2, h3, h4]
      exact List.Sublist.cons arg ih
  | case8 arg next rest2 h1 ih =>
      simp [reorderGo, h1]
      exact ih

theorem reorderGo_snd_nonflag (args : List String) :
    ∀ x ∈ (reorderGo args).2, startsWithDash x = false := by
  induction args using reorderGo.induct with
  | case1 => simp [reorderGo]
  | case2 arg h => simp [reorderGo, h]
  | case3 arg h =>
      simp [reorderGo, h]
  | case4 arg next rest2 h1 h2 ih =>
      simp [reorderGo, h1, h2]
      exact ih
  | case5 arg next rest2 h1 h2 h3 ih =>
      replace h3 : arg ∈ boolFlags := by simpa using h3
      simp [reorderGo, h1, h2, h3]
      exact ih
  | case6 arg next rest2 h1 h2 h3 h4 ih =>
      replace h3 : arg ∉ boolFlags := by simpa using h3
      simp [reorderGo, h1, h2, h3, h4]
      exact ih
  | case7 arg next rest2 h1 h2 h3 h4 ih =>
      replace h3 : arg ∉ boolFlags := by simpa using h3
      simp [reorderGo, h1, h2, h3, h4]
      exact ih
  | case8 arg next rest2 h1 ih =>
      simp [reorderGo, h1]
      exact ih

/-- C4: the output of the reorderer is a permutation of its input of equal length,
of the form flags followed by positionals; each group is a subsequence of the
input (so same-group relative order is preserved), and every token placed in
the positional group is a non-flag token (does not start with `-`). -/
theorem reorder_contract_C4 (args : List String) :
    (reorderArgs args).length = args.length ∧
    (reorderArgs args).Perm args ∧
    reorderArgs args = (reorderGo args).1 ++ (reorderGo args).2 ∧
    (reorderGo args).1.Sublist args ∧
    (reorderGo args).2.Sublist args ∧
    (∀ x ∈ (reorderGo args).2, startsWithDash x = false) :=
  ⟨(reorderGo_perm args).length_eq, reorderGo_perm args, rfl,
   reorderGo_fst_sublist args, reorderGo_snd_sublist args,
   reorderGo_snd_nonflag args⟩

/-- Witness for C4 at the concrete input `["ssh key", "--debug", "--size", "5"]`. -/
theorem reorder_contract_C4_witness :
    (reorderArgs ["ssh key", "--debug", "--size", "5"]).length = 4 ∧
    startsWithDash "ssh key" = false :=
  ⟨(reorder_contract_C4 ["ssh key", "--debug", "--size", "5"]).1,
   (reorder_contract_C4 ["ssh key", "--debug", "--size", "5"]).2.2.2.2.2
     "ssh key" (by decide)⟩

/-- C5: the two concrete reorderings: a boolean flag takes no value, a
value-taking flag consumes the following non-flag token, and a flag with an
embedded `=` value consumes no lookahead token. -/
theorem reorder_examples_C5 :
    reorderArgs ["ssh key", "--debug", "--size", "5"]
      = ["--debug", "--size", "5", "ssh key"] ∧
    reorderArgs ["ssh key", "--size=5", "--debug"]
      = ["--size=5", "--debug", "ssh key"] := by
  constructor
  · decide
  · decide

/-! ## Lemmas about the query-parameter builder -/

theorem paramValues_append (l1 l2 : List (String × String)) (key : String) :
    paramValues (l1 ++ l2) key = paramValues l1 key ++ paramValues l2 key := by
  simp [paramValues, List.filter_append]

theorem paramValues_map_self (key : String) (vs : List String) :
    paramValues (vs.map (fun v => (key, v))) key = vs := by
  simp [paramValues, List.filter_map, Function.comp_def]

theorem paramValues_map_ne (key k : String) (vs : List String) (h : ¬ k = key) :
    paramValues (vs.map (fun v => (k, v))) key = [] := by
  simp [paramValues, List.filter_map, Function.comp_def, h]

set_option maxHeartbeats 800000 in
theorem include_params_eq (o : ParsedOptions) :
    paramValues (buildParams o) "include" =
      if o.includes = [] then
        if o.includeMatchedContent then ["toplevel"] else ["intro"]
      else o.includes := by
  by_cases hm : o.includeMatchedContent <;>
    by_cases hi : o.includes = [] <;>
      simp [buildParams, paramValues, List.filter_append, List.filter_map,
        hm, hi, List.length_eq_zero,
        apply_ite (List.filter (fun p : String × String => decide (p.1 = "include"))),
        apply_ite (List.map (fun p : String × String => p.2)), Function.comp_def]

/-- C2: the include-parameter derivation: with no include selectors the
builder injects exactly one include value, `toplevel` in matched-content mode
and `intro` otherwise; with explicit include selectors it emits exactly those,
in order, regardless of the matched-content boolean. -/
theorem include_params_C2 (o : ParsedOptions) :
    (o.includes = [] → o.includeMatchedContent = true →
      paramValues (buildParams o) "include" = ["toplevel"]) ∧
    (o.includes = [] → o.includeMatchedContent = false →
      paramValues (buildParams o) "include" = ["intro"]) ∧
    (o.includes ≠ [] → paramValues (buildParams o) "include" = o.includes) := by
  refine ⟨fun h1 h2 => ?_, fun h1 h2 => ?_, fun h1 => ?_⟩
  · simp [include_params_eq, h1, h2]
  · simp [include_params_eq, h1, h2]
  · simp [include_params_eq, h1]

/-- Witness for C2 at concrete options. -/
theorem include_params_C2_witness :
    paramValues (buildParams { defaultOpts with includeMatchedContent := true })
      "include" = ["toplevel"] ∧
    paramValues (buildParams defaultOpts) "include" = ["intro"] ∧
    paramValues (buildParams { defaultOpts with includes := ["headings"] })
      "include" = ["headings"] :=
  ⟨(include_params_C2 { defaultOpts with includeMatchedContent := true }).1
      rfl rfl,
   (include_params_C2 defaultOpts).2.1 rfl rfl,
   (include_params_C2 { defaultOpts with includes := ["headings"] }).2.2
      (by decide)⟩

set_option maxHeartbeats 800000 in
/-- C3: the outgoing highlights parameters are the highlight selectors
given by the caller in order (duplicates preserved), with `content_explicit` appended
after them exactly when the matched-content boolean is set. -/
theorem highlights_params_C3 (o : ParsedOptions) :
    paramValues (buildParams o) "highlights" =
      o.highlights ++
        (if o.includeMatchedContent then ["content_explicit"] else []) := by
  by_cases hm : o.includeMatchedContent <;>
    by_cases hh : o.highlights = [] <;>
      simp [buildParams, paramValues, List.filter_append, List.filter_map,
        hm, hh, List.length_eq_zero, List.length_pos,
        apply_ite (List.filter (fun p : String × String => decide (p.1 = "highlights"))),
        apply_ite (List.map (fun p : String × String => p.2)), Function.comp_def]

/-! ## Lemmas about the result renderer -/

theorem maxResults_le (n size : Int) (m : Bool) : maxResults n size m ≤ n := by
  unfold maxResults
  split_ifs with h1 h2
  · exact le_of_lt h1.2.1
  · exact le_of_lt h2
  · exact le_refl n

theorem renderItems_length (o : ParsedOptions) (p : Bool) (i : Nat)
    (l : List SearchItem) : (renderItems o p i l).length = l.length := by
  induction l generalizing i with
  | nil => rfl
  | cons a l ih => simp [renderItems, ih]

theorem renderItems_isItem (o : ParsedOptions) (p : Bool) (i : Nat)
    (l : List SearchItem) : ∀ x ∈ renderItems o p i l, isItem x = true := by
  induction l generalizing i with
  | nil => simp [renderItems]
  | cons a l ih =>
      simp only [renderItems, renderItem, List.mem_cons]
      rintro x (rfl | hx)
      · rfl
      · exact ih (i + 1) x hx

theorem filter_isItem_renderItems (o : ParsedOptions) (p : Bool) (i : Nat)
    (l : List SearchItem) :
    (renderItems o p i l).filter isItem = renderItems o p i l :=
  List.filter_eq_self.2 (renderItems_isItem o p i l)

theorem filter_isItem_moreResultsHint (o : ParsedOptions) (r : SearchResult)
    (maxR : Int) : (moreResultsHint o r maxR).filter isItem = [] := by
  unfold moreResultsHint
  split_ifs <;> simp [isItem]

theorem filter_isItem_paginationLines (r : SearchResult) :
    (paginationLines r).filter isItem = [] := by
  unfold paginationLines
  split_ifs <;> simp [isItem]

theorem renderOutput_shape (o : ParsedOptions) (r : SearchResult)
    (hfmt : ¬ o.format = "json") (hfound : ¬ r.meta.found.value = 0) :
    (renderOutput o r).1 =
      OutLine.foundHeader r.meta.found.value
          (if r.meta.page > 1 then some r.meta.page else none) ::
        (renderItems o (decide (o.plain = false ∧ o.format ≠ "plain")) 0
            (r.hits.take (maxResults r.hits.length o.size
              o.includeMatchedContent).toNat) ++
          (moreResultsHint o r
              (maxResults r.hits.length o.size o.includeMatchedContent) ++
            (if r.meta.size = 0 then [] else paginationLines r))) := by
  unfold renderOutput
  rw [if_neg hfmt, if_neg hfound]
  by_cases hsz : r.meta.size = 0 <;> simp [hsz]

theorem itemCount_renderOutput (o : ParsedOptions) (r : SearchResult)
    (hfmt : ¬ o.format = "json") (hfound : ¬ r.meta.found.value = 0) :
    itemCount (renderOutput o r).1 =
      (maxResults r.hits.length o.size o.includeMatchedContent).toNat := by
  have hle : (maxResults r.hits.length o.size o.includeMatchedContent).toNat
      ≤ r.hits.length := Int.toNat_le.2 (maxResults_le _ _ _)
  rw [renderOutput_shape o r hfmt hfound]
  by_cases hsz : r.meta.size = 0 <;>
    simp [itemCount, isItem, List.filter_append, hsz,
      filter_isItem_renderItems, filter_isItem_moreResultsHint,
      filter_isItem_paginationLines, renderItems_length, hle]

/-- C1: displayed-count selection: with the default size 5, more than 5 hits,
and matched-content off, exactly 5 results are displayed; otherwise a size
smaller than the hit count displays exactly `size` results; otherwise all hits
are displayed. -/
theorem shown_count_C1 (o : ParsedOptions) (r : SearchResult)
    (hfmt : ¬ o.format = "json") (hfound : ¬ r.meta.found.value = 0)
    (hsz : 1 ≤ o.size) :
    (o.size = 5 ∧ (5 : Int) < r.hits.length ∧ o.includeMatchedContent = false →
      itemCount (renderOutput o r).1 = 5) ∧
    (¬(o.size = 5 ∧ (5 : Int) < r.hits.length ∧
        o.includeMatchedContent = false) →
      o.size < (r.hits.length : Int) →
      (itemCount (renderOutput o r).1 : Int) = o.size) ∧
    (¬(o.size = 5 ∧ (5 : Int) < r.hits.length ∧
        o.includeMatchedContent = false) →
      ¬(o.size < (r.hits.length : Int)) →
      itemCount (renderOutput o r).1 = r.hits.length) := by
  have hic := itemCount_renderOutput o r hfmt hfound
  refine ⟨fun h => ?_, fun h1 h2 => ?_, fun h1 h2 => ?_⟩
  · rw [hic]
    unfold maxResults
    rw [if_pos h]
    rfl
  · rw [hic]
    unfold maxResults
    rw [if_neg h1, if_pos h2]
    omega
  · rw [hic]
    unfold maxResults
    rw [if_neg h1, if_neg h2]
    simp

/-- Witness for C1 at the three concrete cases of the claim. -/
theorem shown_count_C1_witness :
    itemCount (renderOutput defaultOpts (sampleResult 10 1 5 10)).1 = 5 ∧
    itemCount (renderOutput defaultOpts (sampleResult 3 1 5 3)).1 = 3 ∧
    (itemCount (renderOutput { defaultOpts with size := 3 }
        (sampleResult 10 1 3 10)).1 : Int) = 3 :=
  ⟨(shown_count_C1 defaultOpts (sampleResult 10 1 5 10) (by decide) (by decide)
      (by decide)).1 (by decide),
   (shown_count_C1 defaultOpts (sampleResult 3 1 5 3) (by decide) (by decide)
      (by decide)).2.2 (by decide) (by decide),
   (shown_count_C1 { defaultOpts with size := 3 } (sampleResult 10 1 3 10)
      (by decide) (by decide) (by decide)).2.1 (by decide) (by decide)⟩

theorem not_mem_renderItems (x : OutLine) (hx : isItem x = false)
    (o : ParsedOptions) (p : Bool) (i : Nat) (l : List SearchItem) :
    x ∉ renderItems o p i l := by
  intro hmem
  have h := renderItems_isItem o p i l x hmem
  rw [hx] at h
  exact Bool.false_ne_true h

theorem mem_paginationLines_shape (r : SearchResult) (x : OutLine)
    (hx : x ∈ paginationLines r) :
    isPageInfo x = true ∨ isNextPageHint x = true := by
  unfold paginationLines at hx
  split_ifs at hx
  · rcases List.mem_cons.1 hx with rfl | hx2
    · left; rfl
    · rcases List.mem_singleton.1 hx2 with rfl
      right; rfl
  · rcases List.mem_cons.1 hx with rfl | hx2
    · left; rfl
    · simp at hx2
  · simp at hx

theorem hintMC_mem_moreResultsHint (o : ParsedOptions) (r : SearchResult)
    (maxR : Int) :
    OutLine.hintMatchedContent ∈ moreResultsHint o r maxR ↔
      (maxR = 5 ∧ r.meta.found.value > 5 ∧ o.includeMatchedContent = false) := by
  unfold moreResultsHint
  split_ifs with h h2 <;> simp [h]

theorem hintSizeAll_mem_moreResultsHint (o : ParsedOptions) (r : SearchResult)
    (maxR : Int)
    (h : maxR = 5 ∧ r.meta.found.value > 5 ∧ o.includeMatchedContent = false)
    (h50 : r.meta.found.value ≤ 50) :
    OutLine.hintSizeAll r.meta.found.value ∈ moreResultsHint o r maxR := by
  unfold moreResultsHint
  rw [if_pos h, if_pos h50]
  simp

theorem hintSizeMax_mem_moreResultsHint (o : ParsedOptions) (r : SearchResult)
    (maxR : Int)
    (h : maxR = 5 ∧ r.meta.found.value > 5 ∧ o.includeMatchedContent = false)
    (h50 : ¬ r.meta.found.value ≤ 50) :
    OutLine.hintSizeMax ∈ moreResultsHint o r maxR ∧
      OutLine.hintPageAll r.meta.found.value ∈ moreResultsHint o r maxR := by
  unfold moreResultsHint
  rw [if_pos h, if_neg h50]
  simp

theorem hintMC_mem_renderOutput (o : ParsedOptions) (r : SearchResult)
    (hfmt : ¬ o.format = "json") (hfound : ¬ r.meta.found.value = 0) :
    OutLine.hintMatchedContent ∈ (renderOutput o r).1 ↔
      (maxResults r.hits.length o.size o.includeMatchedContent = 5 ∧
        r.meta.found.value > 5 ∧ o.includeMatchedContent = false) := by
  rw [renderOutput_shape o r hfmt hfound]
  have hitems : ∀ p : Bool, OutLine.hintMatchedContent
      ∉ renderItems o p 0 (r.hits.take
        (maxResults r.hits.length o.size o.includeMatchedContent).toNat) :=
    fun p => not_mem_renderItems OutLine.hintMatchedContent rfl o p 0 _
  have hpag : OutLine.hintMatchedContent
      ∉ (if r.meta.size = 0 then ([] : List OutLine) else paginationLines r) := by
    split_ifs
    · simp
    · intro hm
      rcases mem_paginationLines_shape r _ hm with hp | hp <;>
        simp [isPageInfo, isNextPageHint] at hp
  simp only [List.mem_cons, List.mem_append]
  simp [hitems, hpag, hintMC_mem_moreResultsHint]

/-- C6: the more-results hint block (the `--size <found>` variant when at most
50 results were found, the `--size 50` plus `--page` variant when more, plus
the matched-content reminder) is printed iff exactly 5 results were displayed,
more than 5 results were found, and matched-content mode is off. -/
theorem more_results_hint_C6 (o : ParsedOptions) (r : SearchResult)
    (hfmt : ¬ o.format = "json") :
    (OutLine.hintMatchedContent ∈ (renderOutput o r).1 ↔
      (itemCount (renderOutput o r).1 = 5 ∧ 5 < r.meta.found.value ∧
        o.includeMatchedContent = false)) ∧
    (OutLine.hintMatchedContent ∈ (renderOutput o r).1 →
      r.meta.found.value ≤ 50 →
      OutLine.hintSizeAll r.meta.found.value ∈ (renderOutput o r).1) ∧
    (OutLine.hintMatchedContent ∈ (renderOutput o r).1 →
      50 < r.meta.found.value →
      OutLine.hintSizeMax ∈ (renderOutput o r).1 ∧
      OutLine.hintPageAll r.meta.found.value ∈ (renderOutput o r).1) := by
  by_cases hz : r.meta.found.value = 0
  · have hout : (renderOutput o r).1 = [OutLine.noResults o.query] := by
      unfold renderOutput
      rw [if_neg hfmt, if_pos hz]
    rw [hout]
    refine ⟨?_, ?_, ?_⟩ <;> simp [hz]
  · have hmem := hintMC_mem_renderOutput o r hfmt hz
    have hic := itemCount_renderOutput o r hfmt hz
    refine ⟨?_, fun hmc h50 => ?_, fun hmc h50 => ?_⟩
    · rw [hmem, hic]
      constructor
      · rintro ⟨h5, hf5, hm⟩
        exact ⟨by omega, hf5, hm⟩
      · rintro ⟨h5, hf5, hm⟩
        exact ⟨by omega, hf5, hm⟩
    · have hcond := hmem.1 hmc
      rw [renderOutput_shape o r hfmt hz]
      exact List.mem_cons_of_mem _ (List.mem_append_right _
        (List.mem_append_left _
          (hintSizeAll_mem_moreResultsHint o r _ hcond h50)))
    · have hcond := hmem.1 hmc
      have hsm := hintSizeMax_mem_moreResultsHint o r _ hcond (by omega)
      rw [renderOutput_shape o r hfmt hz]
      exact ⟨List.mem_cons_of_mem _ (List.mem_append_right _
          (List.mem_append_left _ hsm.1)),
        List.mem_cons_of_mem _ (List.mem_append_right _
          (List.mem_append_left _ hsm.2))⟩

/-- Witness for C6: with 10 found results, default size 5, matched-content
off, the hint block is printed with the size-all variant. -/
theorem more_results_hint_C6_witness :
    OutLine.hintMatchedContent
      ∈ (renderOutput defaultOpts (sampleResult 10 1 5 10)).1 ∧
    OutLine.hintSizeAll 10
      ∈ (renderOutput defaultOpts (sampleResult 10 1 5 10)).1 :=
  ⟨((more_results_hint_C6 defaultOpts (sampleResult 10 1 5 10)
      (by decide)).1).2 (by decide),
   (more_results_hint_C6 defaultOpts (sampleResult 10 1 5 10)
      (by decide)).2.1
     (((more_results_hint_C6 defaultOpts (sampleResult 10 1 5 10)
        (by decide)).1).2 (by decide)) (by decide)⟩

/-- C7: with matched-content off and a non-empty intro, the rendered
description is the truncated intro: unchanged when at most 150 bytes long
(including exactly 150), otherwise the first 150 bytes followed by the 3-byte
ellipsis, so a 151-byte intro renders as a 153-byte string. -/
theorem intro_truncation_C7 (o : ParsedOptions) (p : Bool) (i : Nat)
    (item : SearchItem) (hm : o.includeMatchedContent = false)
    (hne : item.intro ≠ []) :
    itemDesc (renderItem o p i item) = some (truncDescription item.intro) ∧
    (item.intro.length ≤ 150 → truncDescription item.intro = item.intro) ∧
    (150 < item.intro.length →
      truncDescription item.intro = item.intro.take 150 ++ ellipsisBytes ∧
      (truncDescription item.intro).length = 153) := by
  refine ⟨?_, fun hle => ?_, fun hgt => ?_⟩
  · simp [renderItem, itemDesc, hm, hne]
  · unfold truncDescription
    rw [if_neg (by omega)]
  · unfold truncDescription
    rw [if_pos (by omega)]
    refine ⟨rfl, ?_⟩
    simp [ellipsisBytes, List.length_append, List.length_take]
    omega

set_option maxRecDepth 4000 in
/-- Witness for C7 at a 151-byte intro. -/
theorem intro_truncation_C7_witness :
    itemDesc (renderItem defaultOpts true 0
        { sampleItem 0 with intro := List.replicate 151 97 })
      = some (truncDescription (List.replicate 151 97)) ∧
    (truncDescription (List.replicate 151 97)).length = 153 :=
  ⟨(intro_truncation_C7 defaultOpts true 0
      { sampleItem 0 with intro := List.replicate 151 97 } rfl (by decide)).1,
   ((intro_truncation_C7 defaultOpts true 0
      { sampleItem 0 with intro := List.replicate 151 97 } rfl (by decide)).2.2
      (by decide)).2⟩

/-! ## Lemmas about pagination -/

theorem totalPages_ceil (r : SearchResult) (hsz : 1 ≤ r.meta.size)
    (hf : 0 ≤ r.meta.found.value) :
    r.meta.found.value ≤ totalPages r * r.meta.size ∧
    totalPages r * r.meta.size < r.meta.found.value + r.meta.size := by
  unfold totalPages
  rw [Int.tdiv_eq_ediv (by omega) (by omega)]
  have h1 := Int.ediv_add_emod (r.meta.found.value + r.meta.size - 1) r.meta.size
  have h2 := Int.emod_nonneg (r.meta.found.value + r.meta.size - 1)
    (show r.meta.size ≠ 0 by omega)
  have h3 := Int.emod_lt_of_pos (r.meta.found.value + r.meta.size - 1)
    (show (0 : Int) < r.meta.size by omega)
  have hc : (r.meta.found.value + r.meta.size - 1) / r.meta.size * r.meta.size
      = r.meta.size * ((r.meta.found.value + r.meta.size - 1) / r.meta.size) :=
    mul_comm _ _
  omega

theorem totalPages_zero_found (r : SearchResult) (hz : r.meta.found.value = 0)
    (hsz : 1 ≤ r.meta.size) : totalPages r = 0 := by
  unfold totalPages
  rw [hz, Int.tdiv_eq_ediv (by omega) (by omega)]
  exact Int.ediv_eq_zero_of_lt (by omega) (by omega)

theorem any_renderItems_eq_false (q : OutLine → Bool)
    (hq : ∀ n t u d f, q (OutLine.item n t u d f) = false)
    (o : ParsedOptions) (p : Bool) (i : Nat) (l : List SearchItem) :
    (renderItems o p i l).any q = false := by
  induction l generalizing i with
  | nil => rfl
  | cons a l ih => simp [renderItems, renderItem, hq, ih]

theorem any_moreResultsHint_eq_false (q : OutLine → Bool)
    (h1 : q OutLine.hintMatchedContent = false)
    (h2 : ∀ f, q (OutLine.hintSizeAll f) = false)
    (h3 : q OutLine.hintSizeMax = false)
    (h4 : ∀ f, q (OutLine.hintPageAll f) = false)
    (o : ParsedOptions) (r : SearchResult) (maxR : Int) :
    (moreResultsHint o r maxR).any q = false := by
  unfold moreResultsHint
  split_ifs <;> simp [h1, h2, h3, h4]

theorem any_isPageInfo_paginationLines (r : SearchResult) :
    (paginationLines r).any isPageInfo = decide (1 < totalPages r) := by
  unfold paginationLines
  split_ifs with h <;> simp [isPageInfo, h]

theorem any_isNextPageHint_paginationLines (r : SearchResult) :
    (paginationLines r).any isNextPageHint =
      decide (1 < totalPages r ∧ r.meta.page < totalPages r) := by
  unfold paginationLines
  split_ifs <;> simp [isNextPageHint, isPageInfo, *]

/-- C8: total pages is the integer ceiling of the found count divided by the
page size (characterized by found ≤ totalPages*size < found+size, and equal
to 5 for found=22, size=5 in the witness); the pagination section is printed
iff more than one page exists, and the next-page hint iff additionally the
current page is below the last. -/
theorem pagination_C8 (o : ParsedOptions) (r : SearchResult)
    (hfmt : ¬ o.format = "json") (hsz : 1 ≤ r.meta.size)
    (hf : 0 ≤ r.meta.found.value) :
    (r.meta.found.value ≤ totalPages r * r.meta.size ∧
      totalPages r * r.meta.size < r.meta.found.value + r.meta.size) ∧
    ((renderOutput o r).1.any isPageInfo = true ↔ 1 < totalPages r) ∧
    ((renderOutput o r).1.any isNextPageHint = true ↔
      (1 < totalPages r ∧ r.meta.page < totalPages r)) := by
  refine ⟨totalPages_ceil r hsz hf, ?_, ?_⟩
  · by_cases hz : r.meta.found.value = 0
    · have hout : (renderOutput o r).1 = [OutLine.noResults o.query] := by
        unfold renderOutput
        rw [if_neg hfmt, if_pos hz]
      rw [hout, totalPages_zero_found r hz hsz]
      simp [isPageInfo]
    · rw [renderOutput_shape o r hfmt hz]
      simp [List.any_append, isPageInfo, show ¬ r.meta.size = 0 by omega,
        any_renderItems_eq_false isPageInfo (fun n t u d f => rfl),
        any_moreResultsHint_eq_false isPageInfo rfl (fun f => rfl) rfl
          (fun f => rfl),
        any_isPageInfo_paginationLines]
  · by_cases hz : r.meta.found.value = 0
    · have hout : (renderOutput o r).1 = [OutLine.noResults o.query] := by
        unfold renderOutput
        rw [if_neg hfmt, if_pos hz]
      rw [hout, totalPages_zero_found r hz hsz]
      simp [isNextPageHint]
    · rw [renderOutput_shape o r hfmt hz]
      simp [List.any_append, isNextPageHint, show ¬ r.meta.size = 0 by omega,
        any_renderItems_eq_false isNextPageHint (fun n t u d f => rfl),
        any_moreResultsHint_eq_false isNextPageHint rfl (fun f => rfl) rfl
          (fun f => rfl),
        any_isNextPageHint_paginationLines]

/-- Witness for C8 at found=22, size=5 (5 total pages, pagination printed). -/
theorem pagination_C8_witness :
    ((22 : Int) ≤ totalPages (sampleResult 22 1 5 5) * 5 ∧
      totalPages (sampleResult 22 1 5 5) * 5 < 22 + 5) ∧
    totalPages (sampleResult 22 1 5 5) = 5 ∧
    (renderOutput defaultOpts (sampleResult 22 1 5 5)).1.any isPageInfo
      = true :=
  ⟨(pagination_C8 defaultOpts (sampleResult 22 1 5 5) (by decide) (by decide)
      (by decide)).1,
   by decide,
   ((pagination_C8 defaultOpts (sampleResult 22 1 5 5) (by decide) (by decide)
      (by decide)).2.1).2 (by decide)⟩

/-- C9 counterexample: with format `json` and a zero found count the program
prints the serialized result set, not the no-results message, refuting the
claim as stated over every invocation. -/
theorem no_results_C9_counterexample :
    ({ defaultOpts with format := "json" } : ParsedOptions).format = "json" ∧
    (sampleResult 0 1 5 0).meta.found.value = 0 ∧
    (renderOutput { defaultOpts with format := "json" }
        (sampleResult 0 1 5 0)).1 = [OutLine.jsonDump] ∧
    OutLine.noResults ({ defaultOpts with format := "json" }
        : ParsedOptions).query
      ∉ (renderOutput { defaultOpts with format := "json" }
          (sampleResult 0 1 5 0)).1 := by
  decide

/-- C9 (amended): in any non-json format, a zero found count makes the program
print exactly the single no-results message naming the query — no item lines,
no hint, no pagination section — and the run does not panic. -/
theorem no_results_C9 (o : ParsedOptions) (r : SearchResult)
    (hfmt : ¬ o.format = "json") (hz : r.meta.found.value = 0) :
    (renderOutput o r).1 = [OutLine.noResults o.query] ∧
    (renderOutput o r).2 = false := by
  have h : renderOutput o r = ([OutLine.noResults o.query], false) := by
    unfold renderOutput
    rw [if_neg hfmt, if_pos hz]
  rw [h]
  exact ⟨rfl, rfl⟩

/-- Witness for C9 (amended) at a concrete zero-result response. -/
theorem no_results_C9_witness :
    (renderOutput defaultOpts (sampleResult 0 1 5 0)).1
      = [OutLine.noResults "ssh key"] :=
  (no_results_C9 defaultOpts (sampleResult 0 1 5 0) (by decide) rfl).1

/-- C10: the total-pages division is unguarded: in any non-json format, a
positive found count with a decoded page size of zero reaches the
division-by-zero panic, while a page size of at least 1 never panics. -/
theorem division_panic_C10 (o : ParsedOptions) (r : SearchResult) :
    (¬ o.format = "json" → 0 < r.meta.found.value → r.meta.size = 0 →
      (renderOutput o r).2 = true) ∧
    (1 ≤ r.meta.size → (renderOutput o r).2 = false) := by
  constructor
  · intro hfmt hfound hsz
    simp [renderOutput, hfmt, hsz, show ¬ r.meta.found.value = 0 by omega]
  · intro hsz
    by_cases hfmt : o.format = "json"
    · simp [renderOutput, hfmt]
    · by_cases hz : r.meta.found.value = 0
      · simp [renderOutput, hfmt, hz]
      · simp [renderOutput, hfmt, hz, show ¬ r.meta.size = 0 by omega]

/-- Witness for C10: a response with found=10 and size=0 panics in the
default (pretty) format; the same response with size=5 does not. -/
theorem division_panic_C10_witness :
    (renderOutput defaultOpts (sampleResult 10 1 0 10)).2 = true ∧
    (renderOutput defaultOpts (sampleResult 10 1 5 10)).2 = false :=
  ⟨(division_panic_C10 defaultOpts (sampleResult 10 1 0 10)).1 (by decide)
      (by decide) rfl,
   (division_panic_C10 defaultOpts (sampleResult 10 1 5 10)).2 (by decide)⟩
